import Mathlib

/-!
Shallow embedding of the keypad calculator firmware, two display variants:
the binary-LED build (calculatorLED.c) and the dual 7-segment build
(calculatorSevenSeg.c).  Key codes are the unsigned-char values produced by
scanKeypad: digits 0..9, operator keys 0xA..0xD, reset 0xE, confirm (hash)
0xF, and 0xFF for no key.  The blocking scan loops are embedded as
structural recursion over the list of key codes the user will press; an
exhausted list models a loop that blocks forever (result: none).  Display
side effects that feed back into control flow (the 7-segment variant keeps
the currently shown value in globals) are part of the state; purely visual
effects are recorded as flags where a claim mentions them.
-/

/-- Result of one doOperation call: the returned int, plus whether the
divide-by-zero error indication was played inside the call (the LED build
blinks all LEDs, the 7-segment build flashes the E0 pattern). -/
structure OpResult where
  value : Int
  errorShown : Bool
deriving DecidableEq, Repr

/-- Maximum operand / clamp bound of the LED build, 0x63 = 99. -/
def MAX_INPUT : Int := 0x63

/-- doOperation of calculatorLED.c.  Add and Sub are unclamped; Mul is
clamped from above to MAX_INPUT; Div returns the -1 sentinel and blinks the
error pattern when the divisor is 0; unknown codes return 0. -/
def doOperationLED (num1 num2 oper : Int) : OpResult :=
  if oper = 0xA then
    ⟨num1 + num2, false⟩
  else if oper = 0xB then
    ⟨num1 - num2, false⟩
  else if oper = 0xC then
    let r := num1 * num2
    ⟨if r > MAX_INPUT then MAX_INPUT else r, false⟩
  else if oper = 0xD then
    if num2 ≠ 0 then ⟨Int.tdiv num1 num2, false⟩
    else ⟨-1, true⟩
  else ⟨0, false⟩

/-- doOperation of calculatorSevenSeg.c.  Every break path of the switch
falls through a final clamp to [-99, 99]; Mul additionally clamps inside its
case; divide-by-zero flashes the error pattern and returns 0 early; unknown
codes return 0 early. -/
def doOperationSeg (num1 num2 oper : Int) : OpResult :=
  if oper = 0xA then
    let r := num1 + num2
    ⟨if r > 99 then 99 else if r < -99 then -99 else r, false⟩
  else if oper = 0xB then
    let r := num1 - num2
    ⟨if r > 99 then 99 else if r < -99 then -99 else r, false⟩
  else if oper = 0xC then
    let r := num1 * num2
    let r := if r > 99 then 99 else if r < -99 then -99 else r
    ⟨if r > 99 then 99 else if r < -99 then -99 else r, false⟩
  else if oper = 0xD then
    if num2 ≠ 0 then
      let r := Int.tdiv num1 num2
      ⟨if r > 99 then 99 else if r < -99 then -99 else r, false⟩
    else ⟨0, true⟩
  else ⟨0, false⟩

/-- The globals of calculatorLED.c that cross function boundaries
(num11/num12/num21/num22/keyVal are written and read only inside a single
call and stay local to the embedding). -/
structure LedVars where
  num1 : Int
  num2 : Int
  oper : Int
  waitingForHashKey : Bool
  validInput : Bool
deriving DecidableEq, Repr

/-- resetCalculator of calculatorLED.c: clears every global. -/
def resetCalculatorLED : LedVars :=
  { num1 := 0, num2 := 0, oper := 0, waitingForHashKey := false, validInput := false }

/-- Inner wait loop of getNum1 (LED) after the first digit n11 was seen:
a second digit forms 10 * n11 + digit clamped to MAX_INPUT; an operator key
captures the operator for the fast path; hash finishes the single-digit
operand; star resets and returns the 0xFF sentinel. -/
def getNum1LEDdigit (n11 : Int) : List Nat → LedVars → Option (Int × LedVars × List Nat)
  | [], _ => none
  | k :: rest, v =>
    if k = 0xFF then getNum1LEDdigit n11 rest v
    else if k ≤ 9 then
      let n1 := n11 * 10 + (k : Int)
      let n1 := if n1 > MAX_INPUT then MAX_INPUT else n1
      some (n1, { v with num1 := n1 }, rest)
    else if 0xA ≤ k ∧ k ≤ 0xD then
      some (n11, { v with num1 := n11, oper := (k : Int) }, rest)
    else if k = 0xF then
      some (n11, { v with num1 := n11 }, rest)
    else if k = 0xE then
      some (0xFF, resetCalculatorLED, rest)
    else getNum1LEDdigit n11 rest v

/-- Outer wait loop of getNum1 (LED): skips no-key scans, resets on star,
and enters the second-key loop once a first digit arrives. -/
def getNum1LEDloop : List Nat → LedVars → Option (Int × LedVars × List Nat)
  | [], _ => none
  | k :: rest, v =>
    if k = 0xFF then getNum1LEDloop rest v
    else if k = 0xE then some (0xFF, resetCalculatorLED, rest)
    else if k ≤ 9 then
      getNum1LEDdigit (k : Int) rest { v with validInput := true }
    else getNum1LEDloop rest v

/-- getNum1 of calculatorLED.c. -/
def getNum1LED (keys : List Nat) (v : LedVars) : Option (Int × LedVars × List Nat) :=
  getNum1LEDloop keys { v with validInput := false }

/-- Scan loop of getOperator (LED) when no operator was pre-captured. -/
def getOperatorLEDloop : List Nat → LedVars → Option (Int × LedVars × List Nat)
  | [], _ => none
  | k :: rest, v =>
    if k = 0xFF then getOperatorLEDloop rest v
    else if 0xA ≤ k ∧ k ≤ 0xD then some ((k : Int), v, rest)
    else if k = 0xE then some (0, resetCalculatorLED, rest)
    else getOperatorLEDloop rest v

/-- getOperator of calculatorLED.c: if getNum1 already captured an operator
it is consumed (and the global cleared) without scanning; otherwise the scan
loop waits for an operator key, with star resetting (returns 0). -/
def getOperatorLED (keys : List Nat) (v : LedVars) : Option (Int × LedVars × List Nat) :=
  if 0xA ≤ v.oper ∧ v.oper ≤ 0xD then
    some (v.oper, { v with oper := 0 }, keys)
  else getOperatorLEDloop keys v

/-- Inner wait loop of getNum2 (LED) after the first digit n21 was seen;
both completion paths set waitingForHashKey. -/
def getNum2LEDdigit (n21 : Int) : List Nat → LedVars → Option (Int × LedVars × List Nat)
  | [], _ => none
  | k :: rest, v =>
    if k = 0xFF then getNum2LEDdigit n21 rest v
    else if k ≤ 9 then
      let n2 := n21 * 10 + (k : Int)
      let n2 := if n2 > MAX_INPUT then MAX_INPUT else n2
      some (n2, { v with num2 := n2, waitingForHashKey := true }, rest)
    else if k = 0xF then
      some (n21, { v with num2 := n21, waitingForHashKey := true }, rest)
    else if k = 0xE then
      some (0xFF, resetCalculatorLED, rest)
    else getNum2LEDdigit n21 rest v

/-- Outer wait loop of getNum2 (LED). -/
def getNum2LEDloop : List Nat → LedVars → Option (Int × LedVars × List Nat)
  | [], _ => none
  | k :: rest, v =>
    if k = 0xFF then getNum2LEDloop rest v
    else if k = 0xE then some (0xFF, resetCalculatorLED, rest)
    else if k ≤ 9 then
      getNum2LEDdigit (k : Int) rest { v with validInput := true }
    else getNum2LEDloop rest v

/-- getNum2 of calculatorLED.c. -/
def getNum2LED (keys : List Nat) (v : LedVars) : Option (Int × LedVars × List Nat) :=
  getNum2LEDloop keys { v with validInput := false }

/-- The hold loops both builds enter after showing a result or the
divide-by-zero error: scan forever, leaving (through resetCalculator) only
when the star key arrives.  Returns the keys remaining after the reset, or
none when input is exhausted with no star seen. -/
def waitForReset : List Nat → Option (List Nat)
  | [] => none
  | k :: rest => if k = 0xE then some rest else waitForReset rest

/-- Observable outcome of one displayResult call, either build. -/
structure DispRes where
  /-- The awaiting-confirm indication played at entry (the branch guarded by
  waitingForHashKey being false). -/
  waitBlink : Bool
  /-- Value returned by doOperation, once a hash key arrived. -/
  computed : Option Int
  /-- The divide-by-zero indication was played inside doOperation. -/
  errorShown : Bool
  /-- LED build only: the -1-sentinel-and-num2-zero test fired, so the
  routine sat in the error hold loop instead of displaying a value. -/
  errorHold : Bool
  /-- Value handed to the result display (binary pattern or two digits). -/
  shown : Option Int
  /-- Keys remaining after the routine returned via reset, none if it never
  returned. -/
  afterReset : Option (List Nat)
deriving DecidableEq, Repr

/-- Wait-for-hash loop of displayResult (LED).  On hash the result is
computed; -1 together with num2 = 0 is treated as division by zero and leads
to the error hold loop, anything else is displayed (blinking MSB when
negative) and held until reset. -/
def displayResultLEDloop : List Nat → LedVars → Bool → DispRes
  | [], _, wb => ⟨wb, none, false, false, none, none⟩
  | k :: rest, v, wb =>
    if k = 0xFF then displayResultLEDloop rest v wb
    else if k = 0xF then
      let r := doOperationLED v.num1 v.num2 v.oper
      if r.value = -1 ∧ v.num2 = 0 then
        ⟨wb, some r.value, r.errorShown, true, none, waitForReset rest⟩
      else
        ⟨wb, some r.value, r.errorShown, false, some r.value, waitForReset rest⟩
    else if k = 0xE then ⟨wb, none, false, false, none, some rest⟩
    else displayResultLEDloop rest v wb

/-- displayResult of calculatorLED.c: the D4 blink plays exactly when
waitingForHashKey is false, then the hash wait loop runs. -/
def displayResultLED (keys : List Nat) (v : LedVars) : DispRes :=
  displayResultLEDloop keys v (!v.waitingForHashKey)

/-- Outcome of one pass of the main loop (one calculation cycle). -/
inductive CycleOut where
  /-- Input exhausted inside a blocking wait. -/
  | blocked : CycleOut
  /-- A reset sentinel made main continue back to the top of the loop; the
  payload is the keys left for the next cycle. -/
  | restart : List Nat → CycleOut
  /-- displayResult ran to the end of the cycle. -/
  | done : DispRes → CycleOut
deriving DecidableEq, Repr

/-- One pass of main of calculatorLED.c: reset, getNum1 (0xFF sentinel means
restart), getOperator (0 means restart), getNum2 (0xFF means restart),
displayResult. -/
def runCycleLED (keys : List Nat) : CycleOut :=
  match getNum1LED keys resetCalculatorLED with
  | none => CycleOut.blocked
  | some (n1, v1, r1) =>
    let v1 := { v1 with num1 := n1 }
    if n1 = 0xFF then CycleOut.restart r1
    else
      match getOperatorLED r1 v1 with
      | none => CycleOut.blocked
      | some (o, v2, r2) =>
        let v2 := { v2 with oper := o }
        if o = 0 then CycleOut.restart r2
        else
          match getNum2LED r2 v2 with
          | none => CycleOut.blocked
          | some (n2, v3, r3) =>
            let v3 := { v3 with num2 := n2 }
            if n2 = 0xFF then CycleOut.restart r3
            else CycleOut.done (displayResultLED r3 v3)

/-- Segment constant of calculatorSevenSeg.c, RD6. -/
def SEG_A : Nat := 1 <<< 6

/-- Segment constant, RD5. -/
def SEG_B : Nat := 1 <<< 5

/-- Segment constant, RD4. -/
def SEG_C : Nat := 1 <<< 4

/-- Segment constant, RD3. -/
def SEG_D : Nat := 1 <<< 3

/-- Segment constant, RD2. -/
def SEG_E : Nat := 1 <<< 2

/-- Segment constant, RD1. -/
def SEG_F : Nat := 1 <<< 1

/-- Segment constant, RD0. -/
def SEG_G : Nat := 1 <<< 0

/-- Decimal-point segment, RD7. -/
def SEG_DP : Nat := 1 <<< 7

/-- digitPatterns table of calculatorSevenSeg.c: digits 0-9, the error
pattern, and blank. -/
def digitPatterns : List Nat :=
  [SEG_A ||| SEG_B ||| SEG_C ||| SEG_D ||| SEG_E ||| SEG_F,
   SEG_B ||| SEG_C,
   SEG_A ||| SEG_B ||| SEG_G ||| SEG_E ||| SEG_D,
   SEG_A ||| SEG_B ||| SEG_C ||| SEG_D ||| SEG_G,
   SEG_F ||| SEG_G ||| SEG_B ||| SEG_C,
   SEG_A ||| SEG_F ||| SEG_G ||| SEG_C ||| SEG_D,
   SEG_A ||| SEG_F ||| SEG_G ||| SEG_C ||| SEG_D ||| SEG_E,
   SEG_A ||| SEG_B ||| SEG_C,
   SEG_A ||| SEG_B ||| SEG_C ||| SEG_D ||| SEG_E ||| SEG_F ||| SEG_G,
   SEG_A ||| SEG_B ||| SEG_C ||| SEG_D ||| SEG_F ||| SEG_G,
   SEG_A ||| SEG_D ||| SEG_G,
   0]

/-- operatorPatterns table of calculatorSevenSeg.c: glyphs for the four
operator keys A-D. -/
def operatorPatterns : List Nat :=
  [SEG_F ||| SEG_E ||| SEG_A ||| SEG_B ||| SEG_C,
   SEG_F ||| SEG_E ||| SEG_G ||| SEG_C ||| SEG_D,
   SEG_A ||| SEG_F ||| SEG_E ||| SEG_D,
   SEG_B ||| SEG_C ||| SEG_D ||| SEG_E ||| SEG_G]

/-- PATTERN_MINUS of calculatorSevenSeg.c. -/
def PATTERN_MINUS : Nat := SEG_G

/-- PATTERN_BLANK of calculatorSevenSeg.c. -/
def PATTERN_BLANK : Nat := 0

/-- encodeDigit of calculatorSevenSeg.c: operator glyph for 0xA..0xD, digit
glyph for 0..9, minus for -1, blank otherwise.  Array indexing is embedded
with getD; the in-bounds facts are proved in the C10 theorem. -/
def encodeDigit (digit : Int) : Nat :=
  if 0xA ≤ digit ∧ digit ≤ 0xD then
    operatorPatterns.getD (digit - 0xA).toNat 0
  else if 0 ≤ digit ∧ digit ≤ 9 then
    digitPatterns.getD digit.toNat 0
  else if digit = -1 then
    PATTERN_MINUS
  else
    PATTERN_BLANK

/-- Segment pattern written to PORTD by displayDigit: the encoded digit,
with the decimal point OR-ed in on request. -/
def displayDigitPattern (digit : Int) (dp : Bool) : Nat :=
  let pat := encodeDigit digit
  if dp then pat ||| SEG_DP else pat

/-- Display-mode constant of calculatorSevenSeg.c. -/
def DISPLAY_RESET : Int := 0

/-- Display-mode constant of calculatorSevenSeg.c. -/
def DISPLAY_NUM1 : Int := 1

/-- Display-mode constant of calculatorSevenSeg.c. -/
def DISPLAY_OPERATOR : Int := 2

/-- Display-mode constant of calculatorSevenSeg.c. -/
def DISPLAY_NUM2 : Int := 3

/-- Display-mode constant of calculatorSevenSeg.c. -/
def DISPLAY_RESULT : Int := 4

/-- The globals of calculatorSevenSeg.c that cross function boundaries,
including the static previousMode local of updateDisplay. -/
structure SegVars where
  num1 : Int
  num2 : Int
  oper : Int
  waitingForHashKey : Bool
  validInput : Bool
  displayMode : Int
  currentDisplayValue : Int
  isDisplayNegative : Bool
  previousMode : Int
deriving DecidableEq, Repr

/-- refreshDisplay of calculatorSevenSeg.c: records the shown value and its
sign for later re-display. -/
def refreshDisplaySeg (number : Int) (v : SegVars) : SegVars :=
  { v with currentDisplayValue := number, isDisplayNegative := number < 0 }

/-- updateDisplay of calculatorSevenSeg.c, restricted to its effect on the
globals.  The NUM1-to-OPERATOR transition saves and restores
currentDisplayValue (a net no-op on the state); NUM1/NUM2/RESULT modes
refresh with the given value; OPERATOR only drives segments; RESET and
unknown modes refresh with 0.  previousMode is updated last. -/
def updateDisplaySeg (value mode : Int) (v : SegVars) : SegVars :=
  let v := { v with displayMode := mode }
  let v :=
    if v.previousMode = DISPLAY_NUM1 ∧ mode = DISPLAY_OPERATOR then v
    else if mode = DISPLAY_NUM1 ∨ mode = DISPLAY_NUM2 ∨ mode = DISPLAY_RESULT then
      refreshDisplaySeg value v
    else if mode = DISPLAY_OPERATOR then v
    else refreshDisplaySeg 0 v
  { v with previousMode := mode }

/-- resetCalculator of calculatorSevenSeg.c: clears every global and shows
"00" through updateDisplay in RESET mode. -/
def resetCalculatorSeg (v : SegVars) : SegVars :=
  updateDisplaySeg 0 DISPLAY_RESET
    { v with num1 := 0, num2 := 0, oper := 0, waitingForHashKey := false,
             validInput := false, displayMode := DISPLAY_RESET,
             currentDisplayValue := 0, isDisplayNegative := false }

/-- Global state after initialize() of calculatorSevenSeg.c (previousMode
carries its static initializer DISPLAY_RESET). -/
def segInit : SegVars :=
  { num1 := 0, num2 := 0, oper := 0, waitingForHashKey := false,
    validInput := false, displayMode := DISPLAY_RESET,
    currentDisplayValue := 0, isDisplayNegative := false,
    previousMode := DISPLAY_RESET }

/-- Inner wait loop of getNum1 (7-segment) after the first digit was seen;
the two-digit path refreshes the display with the clamped value, the
operator fast path and the hash path return without a display update. -/
def getNum1SegDigit (n1tens : Int) : List Nat → SegVars → Option (Int × SegVars × List Nat)
  | [], _ => none
  | k :: rest, v =>
    if k = 0xFF then getNum1SegDigit n1tens rest v
    else if k ≤ 9 then
      let n1 := n1tens * 10 + (k : Int)
      let n1 := if n1 > MAX_INPUT then MAX_INPUT else n1
      some (n1, updateDisplaySeg n1 DISPLAY_NUM1 { v with num1 := n1 }, rest)
    else if 0xA ≤ k ∧ k ≤ 0xD then
      some (n1tens, { v with num1 := n1tens, oper := (k : Int) }, rest)
    else if k = 0xF then
      some (n1tens, { v with num1 := n1tens }, rest)
    else if k = 0xE then
      some (0xFF, resetCalculatorSeg v, rest)
    else getNum1SegDigit n1tens rest v

/-- Outer wait loop of getNum1 (7-segment): the first digit is shown in
NUM1 mode before the second-key loop starts. -/
def getNum1SegLoop : List Nat → SegVars → Option (Int × SegVars × List Nat)
  | [], _ => none
  | k :: rest, v =>
    if k = 0xFF then getNum1SegLoop rest v
    else if k = 0xE then some (0xFF, resetCalculatorSeg v, rest)
    else if k ≤ 9 then
      getNum1SegDigit (k : Int) rest
        (updateDisplaySeg (k : Int) DISPLAY_NUM1 { v with validInput := true })
    else getNum1SegLoop rest v

/-- getNum1 of calculatorSevenSeg.c: enters NUM1 display mode showing 0,
then scans. -/
def getNum1Seg (keys : List Nat) (v : SegVars) : Option (Int × SegVars × List Nat) :=
  getNum1SegLoop keys (updateDisplaySeg 0 DISPLAY_NUM1 { v with validInput := false })

/-- Scan loop of getOperator (7-segment) when no operator was pre-captured;
on success currentDisplayValue is put back to the stored num1. -/
def getOperatorSegLoop (storedNum1 : Int) : List Nat → SegVars → Option (Int × SegVars × List Nat)
  | [], _ => none
  | k :: rest, v =>
    if k = 0xFF then getOperatorSegLoop storedNum1 rest v
    else if 0xA ≤ k ∧ k ≤ 0xD then
      some ((k : Int), { v with currentDisplayValue := storedNum1 }, rest)
    else if k = 0xE then some (0, resetCalculatorSeg v, rest)
    else getOperatorSegLoop storedNum1 rest v

/-- getOperator of calculatorSevenSeg.c: a pre-captured operator is returned
without scanning (the global is left as is; main overwrites it with the
return value), otherwise the scan loop waits; star resets and returns 0. -/
def getOperatorSeg (keys : List Nat) (v : SegVars) : Option (Int × SegVars × List Nat) :=
  let storedNum1 := v.num1
  if 0xA ≤ v.oper ∧ v.oper ≤ 0xD then
    some (v.oper, { v with currentDisplayValue := storedNum1 }, keys)
  else getOperatorSegLoop storedNum1 keys v

/-- Inner wait loop of getNum2 (7-segment).  Note both reset branches of
getNum2 return 0, not the 0xFF sentinel main tests for. -/
def getNum2SegDigit (n2tens : Int) : List Nat → SegVars → Option (Int × SegVars × List Nat)
  | [], _ => none
  | k :: rest, v =>
    if k = 0xFF then getNum2SegDigit n2tens rest v
    else if k ≤ 9 then
      let n2 := n2tens * 10 + (k : Int)
      let n2 := if n2 > MAX_INPUT then MAX_INPUT else n2
      let v := updateDisplaySeg n2 DISPLAY_NUM2 { v with num2 := n2 }
      some (n2, { v with waitingForHashKey := true }, rest)
    else if k = 0xF then
      some (n2tens, { v with num2 := n2tens, waitingForHashKey := true }, rest)
    else if k = 0xE then
      some (0, resetCalculatorSeg v, rest)
    else getNum2SegDigit n2tens rest v

/-- Outer wait loop of getNum2 (7-segment). -/
def getNum2SegLoop : List Nat → SegVars → Option (Int × SegVars × List Nat)
  | [], _ => none
  | k :: rest, v =>
    if k = 0xFF then getNum2SegLoop rest v
    else if k = 0xE then some (0, resetCalculatorSeg v, rest)
    else if k ≤ 9 then
      getNum2SegDigit (k : Int) rest
        (updateDisplaySeg (k : Int) DISPLAY_NUM2 { v with validInput := true })
    else getNum2SegLoop rest v

/-- getNum2 of calculatorSevenSeg.c: enters NUM2 display mode showing 0,
then scans. -/
def getNum2Seg (keys : List Nat) (v : SegVars) : Option (Int × SegVars × List Nat) :=
  getNum2SegLoop keys (updateDisplaySeg 0 DISPLAY_NUM2 { v with validInput := false })

/-- Wait-for-hash loop of displayResult (7-segment): on hash the result is
computed, shown in RESULT mode, and held until reset. -/
def displayResultSegLoop : List Nat → SegVars → Bool → DispRes
  | [], _, wb => ⟨wb, none, false, false, none, none⟩
  | k :: rest, v, wb =>
    if k = 0xFF then displayResultSegLoop rest v wb
    else if k = 0xF then
      let r := doOperationSeg v.num1 v.num2 v.oper
      ⟨wb, some r.value, r.errorShown, false, some r.value, waitForReset rest⟩
    else if k = 0xE then ⟨wb, none, false, false, none, some rest⟩
    else displayResultSegLoop rest v wb

/-- displayResult of calculatorSevenSeg.c: the awaiting-hash blink plays
exactly when waitingForHashKey is false, then the hash wait loop runs. -/
def displayResultSeg (keys : List Nat) (v : SegVars) : DispRes :=
  displayResultSegLoop keys v (!v.waitingForHashKey)

/-- One pass of main of calculatorSevenSeg.c: reset, getNum1 (0xFF sentinel
means restart), keep the shown value at num1, getOperator (0 means restart),
save currentDisplayValue, getNum2 (main tests for 0xFF, which getNum2 never
returns on reset), restore num1 from the saved display value, and
displayResult. -/
def runCycleSeg (keys : List Nat) : CycleOut :=
  match getNum1Seg keys (resetCalculatorSeg segInit) with
  | none => CycleOut.blocked
  | some (n1, v1, r1) =>
    let v1 := { v1 with num1 := n1 }
    if n1 = 0xFF then CycleOut.restart r1
    else
      let v1 := { v1 with currentDisplayValue := n1 }
      match getOperatorSeg r1 v1 with
      | none => CycleOut.blocked
      | some (o, v2, r2) =>
        let v2 := { v2 with oper := o }
        if o = 0 then CycleOut.restart r2
        else
          let savedNum1 := v2.currentDisplayValue
          match getNum2Seg r2 v2 with
          | none => CycleOut.blocked
          | some (n2, v3, r3) =>
            let v3 := { v3 with num2 := n2 }
            if n2 = 0xFF then CycleOut.restart r3
            else CycleOut.done (displayResultSeg r3 { v3 with num1 := savedNum1 })

/-- Modelled from the claim's words for C3 (not from the source): the LED
multiply as the claim states it, the product clamped to the range 0..255. -/
def claimMulLED (a b : Int) : Int := min (max (a * b) 0) 255

/-- The reset hold loop produces no exit while no star key is in the
input. -/
theorem waitForReset_none (ks : List Nat) (h : 0xE ∉ ks) : waitForReset ks = none := by
  induction ks with
  | nil => rfl
  | cons k rest ih =>
    simp only [List.mem_cons, not_or] at h
    rw [waitForReset, if_neg (Ne.symm h.1)]
    exact ih h.2

/-- Without a hash key the LED displayResult wait loop computes and shows
nothing, keeps its entry blink flag, and without a star key never
returns. -/
theorem displayResultLEDloop_gate (keys : List Nat) (v : LedVars) (wb : Bool) :
    0xF ∉ keys →
    (displayResultLEDloop keys v wb).computed = none ∧
    (displayResultLEDloop keys v wb).shown = none ∧
    (displayResultLEDloop keys v wb).waitBlink = wb ∧
    (0xE ∉ keys → (displayResultLEDloop keys v wb).afterReset = none) := by
  induction keys with
  | nil => exact fun _ => ⟨rfl, rfl, rfl, fun _ => rfl⟩
  | cons k rest ih =>
    intro hf
    simp only [List.mem_cons, not_or] at hf
    obtain ⟨hk, hrest⟩ := hf
    by_cases h1 : k = 0xFF
    · subst h1
      rw [show displayResultLEDloop (0xFF :: rest) v wb = displayResultLEDloop rest v wb from by
        rw [displayResultLEDloop, if_pos rfl]]
      have h := ih hrest
      refine ⟨h.1, h.2.1, h.2.2.1, fun he => h.2.2.2 ?_⟩
      simp only [List.mem_cons, not_or] at he
      exact he.2
    · by_cases h2 : k = 0xE
      · subst h2
        rw [show displayResultLEDloop (0xE :: rest) v wb =
            ⟨wb, none, false, false, none, some rest⟩ from by
          rw [displayResultLEDloop, if_neg (by decide), if_neg (Ne.symm hk), if_pos rfl]]
        exact ⟨rfl, rfl, rfl, fun he => absurd (by simp) he⟩
      · rw [show displayResultLEDloop (k :: rest) v wb = displayResultLEDloop rest v wb from by
          rw [displayResultLEDloop, if_neg h1, if_neg (Ne.symm hk), if_neg h2]]
        have h := ih hrest
        refine ⟨h.1, h.2.1, h.2.2.1, fun he => h.2.2.2 ?_⟩
        simp only [List.mem_cons, not_or] at he
        exact he.2

/-- Without a hash key the 7-segment displayResult wait loop computes and
shows nothing, keeps its entry blink flag, and without a star key never
returns. -/
theorem displayResultSegLoop_gate (keys : List Nat) (v : SegVars) (wb : Bool) :
    0xF ∉ keys →
    (displayResultSegLoop keys v wb).computed = none ∧
    (displayResultSegLoop keys v wb).shown = none ∧
    (displayResultSegLoop keys v wb).waitBlink = wb ∧
    (0xE ∉ keys → (displayResultSegLoop keys v wb).afterReset = none) := by
  induction keys with
  | nil => exact fun _ => ⟨rfl, rfl, rfl, fun _ => rfl⟩
  | cons k rest ih =>
    intro hf
    simp only [List.mem_cons, not_or] at hf
    obtain ⟨hk, hrest⟩ := hf
    by_cases h1 : k = 0xFF
    · subst h1
      rw [show displayResultSegLoop (0xFF :: rest) v wb = displayResultSegLoop rest v wb from by
        rw [displayResultSegLoop, if_pos rfl]]
      have h := ih hrest
      refine ⟨h.1, h.2.1, h.2.2.1, fun he => h.2.2.2 ?_⟩
      simp only [List.mem_cons, not_or] at he
      exact he.2
    · by_cases h2 : k = 0xE
      · subst h2
        rw [show displayResultSegLoop (0xE :: rest) v wb =
            ⟨wb, none, false, false, none, some rest⟩ from by
          rw [displayResultSegLoop, if_neg (by decide), if_neg (Ne.symm hk), if_pos rfl]]
        exact ⟨rfl, rfl, rfl, fun he => absurd (by simp) he⟩
      · rw [show displayResultSegLoop (k :: rest) v wb = displayResultSegLoop rest v wb from by
          rw [displayResultSegLoop, if_neg h1, if_neg (Ne.symm hk), if_neg h2]]
        have h := ih hrest
        refine ⟨h.1, h.2.1, h.2.2.1, fun he => h.2.2.2 ?_⟩
        simp only [List.mem_cons, not_or] at he
        exact he.2

/-- Every path of the 7-segment doOperation returns a value in [-99, 99],
for all integer operands and operator codes. -/
theorem doOperationSeg_bounds (a b o : Int) :
    -99 ≤ (doOperationSeg a b o).value ∧ (doOperationSeg a b o).value ≤ 99 := by
  simp only [doOperationSeg]
  split_ifs <;> dsimp only <;> omega

/-- C1 (amended): for every first operand a in [0, 99], evaluating a Div 0
signals divide-by-zero in both builds: each plays its distinct error
indication, and the hold loop entered afterwards can be left only by the
Reset key.  The LED build returns the -1 sentinel, which displayResult
routes to the error hold loop so no numeric result is shown; the 7-segment
build returns 0 after the error flash, and displayResult then shows that 0
as the numeric result of the cycle (this last point is where the original
claim fails). -/
theorem c1_divzero_amended (a : Int) (h1 : 0 ≤ a) (h2 : a ≤ 99) :
    doOperationLED a 0 0xD = ⟨-1, true⟩ ∧
    doOperationSeg a 0 0xD = ⟨0, true⟩ ∧
    (∀ (v : LedVars) (rest : List Nat), v.num1 = a → v.num2 = 0 → v.oper = 0xD →
      displayResultLED (0xF :: rest) v =
        ⟨!v.waitingForHashKey, some (-1), true, true, none, waitForReset rest⟩) ∧
    (∀ (v : SegVars) (rest : List Nat), v.num1 = a → v.num2 = 0 → v.oper = 0xD →
      displayResultSeg (0xF :: rest) v =
        ⟨!v.waitingForHashKey, some 0, true, false, some 0, waitForReset rest⟩) ∧
    (∀ ks : List Nat, 0xE ∉ ks → waitForReset ks = none) := by
  have hled : doOperationLED a 0 0xD = ⟨-1, true⟩ := by norm_num [doOperationLED]
  have hseg : doOperationSeg a 0 0xD = ⟨0, true⟩ := by norm_num [doOperationSeg]
  refine ⟨hled, hseg, ?_, ?_, fun ks h => waitForReset_none ks h⟩
  · intro v rest hv1 hv2 hv3
    rw [displayResultLED, displayResultLEDloop, if_neg (by decide), if_pos rfl,
      hv1, hv2, hv3, hled]
    norm_num
  · intro v rest hv1 hv2 hv3
    rw [displayResultSeg, displayResultSegLoop, if_neg (by decide), if_pos rfl,
      hv1, hv2, hv3, hseg]

/-- C1 (counterexample to the claim as stated): in the 7-segment build the
divide-by-zero cycle 5, D, 0, hash, hash does produce and display the
numeric result 0 (shown = some 0) after the error indication, so the
claim's conjunct that no numeric result is produced for the cycle is false
for that variant. -/
theorem c1_divzero_cex :
    runCycleSeg [5, 0xD, 0, 0xF, 0xF] =
      CycleOut.done ⟨false, some 0, true, false, some 0, none⟩ := rfl

/-- C1 witness: the amended theorem applied at a = 5. -/
theorem c1_divzero_witness :
    (0 : Int) ≤ 5 ∧ (5 : Int) ≤ 99 ∧ doOperationLED 5 0 0xD = ⟨-1, true⟩ ∧
    doOperationSeg 5 0 0xD = ⟨0, true⟩ ∧
    displayResultLED [0xF] ⟨5, 0, 0xD, true, true⟩ =
      ⟨false, some (-1), true, true, none, none⟩ ∧
    waitForReset [3, 7] = none := by
  have h := c1_divzero_amended 5 (by decide) (by decide)
  refine ⟨by decide, by decide, h.1, h.2.1, ?_, h.2.2.2.2 [3, 7] (by decide)⟩
  have h3 := h.2.2.1 ⟨5, 0, 0xD, true, true⟩ [] rfl rfl rfl
  simpa using h3

/-- C2 (evaluation at the failing input): pressing Reset while the second
operand is awaited does not return the 7-segment build to the start of a
cycle.  getNum2 runs resetCalculator but returns 0, while main tests the
0xFF sentinel, so the cycle 5, A, star, hash falls through into
displayResult (with num1 restored to 5 from the saved display value) and
computes a result; the LED build on the same keys restarts as the claim
requires. -/
theorem c2_reset_bug :
    runCycleSeg [5, 0xA, 0xE, 0xF] =
      CycleOut.done ⟨true, some 0, false, false, some 0, none⟩ ∧
    runCycleLED [5, 0xA, 0xE, 0xF] = CycleOut.restart [0xF] := ⟨rfl, rfl⟩

/-- C3 (counterexample to the claim as stated): the claim says the LED
build clamps the product to 0..255, but doOperation in calculatorLED.c
clamps it to MAX_INPUT = 99: at 10 * 10 the code returns 99 while the
claimed clamp would return 100. -/
theorem c3_mul_clamp_cex :
    (doOperationLED 10 10 0xC).value = 99 ∧ claimMulLED 10 10 = 100 ∧
    (doOperationLED 10 10 0xC).value ≠ claimMulLED 10 10 := by decide

/-- C3 (amended): for operands in [0, 99] the 7-segment build clamps the
product to [-99, 99] and the LED build clamps it from above to
MAX_INPUT = 99 with no negative-side check (a 0..255 clamp exists only in
the LED display routines, not in doOperation). -/
theorem c3_mul_clamp_amended (a b : Int) (h1 : 0 ≤ a) (h2 : a ≤ 99) (h3 : 0 ≤ b)
    (h4 : b ≤ 99) :
    (doOperationSeg a b 0xC).value = max (-99) (min (a * b) 99) ∧
    (doOperationLED a b 0xC).value = min (a * b) 99 := by
  have hab : 0 ≤ a * b := mul_nonneg h1 h3
  constructor <;> norm_num [doOperationSeg, doOperationLED, MAX_INPUT] <;>
    split_ifs <;> omega

/-- C3 witness: the amended theorem applied at a = b = 10. -/
theorem c3_mul_clamp_witness :
    (0 : Int) ≤ 10 ∧ (10 : Int) ≤ 99 ∧
    (doOperationSeg 10 10 0xC).value = max (-99) (min ((10 : Int) * 10) 99) ∧
    (doOperationLED 10 10 0xC).value = min ((10 : Int) * 10) 99 := by
  have h := c3_mul_clamp_amended 10 10 (by decide) (by decide) (by decide) (by decide)
  exact ⟨by decide, by decide, h.1, h.2⟩

/-- C4: for any two digit keys d1, d2 entered consecutively as one operand,
each of the four operand-entry routines (getNum1 and getNum2 of both
builds) returns 10 * d1 + d2 clamped to at most 99, from any starting
state. -/
theorem c4_two_digit (d1 d2 : Nat) (rest : List Nat) (vL : LedVars) (vS : SegVars)
    (h1 : d1 ≤ 9) (h2 : d2 ≤ 9) :
    (getNum1LED (d1 :: d2 :: rest) vL).map (fun r => r.1) =
      some (min (10 * (d1 : Int) + (d2 : Int)) 99) ∧
    (getNum2LED (d1 :: d2 :: rest) vL).map (fun r => r.1) =
      some (min (10 * (d1 : Int) + (d2 : Int)) 99) ∧
    (getNum1Seg (d1 :: d2 :: rest) vS).map (fun r => r.1) =
      some (min (10 * (d1 : Int) + (d2 : Int)) 99) ∧
    (getNum2Seg (d1 :: d2 :: rest) vS).map (fun r => r.1) =
      some (min (10 * (d1 : Int) + (d2 : Int)) 99) := by
  interval_cases d1 <;> interval_cases d2 <;> exact ⟨rfl, rfl, rfl, rfl⟩

/-- C4 witness: the theorem applied at the digits 9, 9. -/
theorem c4_two_digit_witness :
    (9 : Nat) ≤ 9 ∧
    (getNum1LED [9, 9] resetCalculatorLED).map (fun r => r.1) =
      some (min (10 * ((9 : Nat) : Int) + ((9 : Nat) : Int)) 99) ∧
    (getNum2Seg [9, 9] segInit).map (fun r => r.1) =
      some (min (10 * ((9 : Nat) : Int) + ((9 : Nat) : Int)) 99) := by
  have h := c4_two_digit 9 9 [] resetCalculatorLED segInit (by decide) (by decide)
  exact ⟨by decide, h.1, h.2.2.2⟩

/-- C5: for operands in [0, 99] and operator Add, Sub or Mul, the
7-segment doOperation returns a value in [-99, 99] and the LED doOperation
returns a value in the signed 8-bit display range [-127, 255] described by
the specification (positive side 255, negative magnitude 127), and
re-evaluating with the same inputs returns the same value. -/
theorem c5_eval_bounded (a b o : Int) (h1 : 0 ≤ a) (h2 : a ≤ 99) (h3 : 0 ≤ b)
    (h4 : b ≤ 99) (h5 : o = 0xA ∨ o = 0xB ∨ o = 0xC) :
    ((-99 ≤ (doOperationSeg a b o).value ∧ (doOperationSeg a b o).value ≤ 99) ∧
     (-127 ≤ (doOperationLED a b o).value ∧ (doOperationLED a b o).value ≤ 255)) ∧
    (doOperationSeg a b o = doOperationSeg a b o ∧
     doOperationLED a b o = doOperationLED a b o) := by
  have hab : 0 ≤ a * b := mul_nonneg h1 h3
  refine ⟨⟨doOperationSeg_bounds a b o, ?_⟩, rfl, rfl⟩
  rcases h5 with h | h | h <;> subst h <;>
    simp only [doOperationLED, MAX_INPUT] <;> split_ifs <;> dsimp only <;> omega

/-- C5 witness: the theorem applied at 7 Add 3. -/
theorem c5_eval_bounded_witness :
    ((-99 ≤ (doOperationSeg 7 3 0xA).value ∧ (doOperationSeg 7 3 0xA).value ≤ 99) ∧
     (-127 ≤ (doOperationLED 7 3 0xA).value ∧ (doOperationLED 7 3 0xA).value ≤ 255)) ∧
    doOperationLED 7 3 0xA = doOperationLED 7 3 0xA := by
  have h := c5_eval_bounded 7 3 0xA (by decide) (by decide) (by decide) (by decide)
    (Or.inl rfl)
  exact ⟨h.1, h.2.2⟩

/-- C6: entering a single digit d followed directly by an operator key
produces exactly the same cycle outcome as entering the two-digit sequence
0 then d followed by the operator key, for every digit, every operator key
and every continuation of the input, in both builds. -/
theorem c6_entry_path_equiv (d op : Nat) (rest : List Nat)
    (h1 : d ≤ 9) (h2 : 0xA ≤ op) (h3 : op ≤ 0xD) :
    runCycleLED (d :: op :: rest) = runCycleLED (0 :: d :: op :: rest) ∧
    runCycleSeg (d :: op :: rest) = runCycleSeg (0 :: d :: op :: rest) := by
  interval_cases d <;> interval_cases op <;> exact ⟨rfl, rfl⟩

/-- C6 witness: the theorem applied at digit 5 and operator key A. -/
theorem c6_entry_path_witness :
    (5 : Nat) ≤ 9 ∧ (0xA : Nat) ≤ 0xA ∧ (0xA : Nat) ≤ 0xD ∧
    runCycleLED [5, 0xA] = runCycleLED [0, 5, 0xA] ∧
    runCycleSeg [5, 0xA] = runCycleSeg [0, 5, 0xA] := by
  have h := c6_entry_path_equiv 5 0xA [] (by decide) (by decide) (by decide)
  exact ⟨by decide, by decide, by decide, h.1, h.2⟩

/-- C7 (counterexample to the claim as stated): in the cycle 5, A, 3, hash
the Confirm key is consumed during second-operand entry (waitingForHashKey
is set), yet with no further input displayResult computes nothing in either
build: the Presenter does not proceed without further input when Confirm
was already consumed. -/
theorem c7_confirm_cex :
    runCycleLED [5, 0xA, 3, 0xF] =
      CycleOut.done ⟨false, none, false, false, none, none⟩ ∧
    runCycleSeg [5, 0xA, 3, 0xF] =
      CycleOut.done ⟨false, none, false, false, none, none⟩ := ⟨rfl, rfl⟩

/-- C7 (amended): before the result is computed the Presenter of either
build always blocks until a Confirm or Reset key arrives, even when a
Confirm was already consumed during operand entry; the awaiting-confirm
blink plays exactly when waitingForHashKey was not set; and the result is
never computed or shown before a Confirm arrives. -/
theorem c7_confirm_amended (keys : List Nat) (vL : LedVars) (vS : SegVars)
    (hf : 0xF ∉ keys) :
    ((displayResultLED keys vL).computed = none ∧
     (displayResultLED keys vL).shown = none ∧
     (displayResultLED keys vL).waitBlink = !vL.waitingForHashKey) ∧
    ((displayResultSeg keys vS).computed = none ∧
     (displayResultSeg keys vS).shown = none ∧
     (displayResultSeg keys vS).waitBlink = !vS.waitingForHashKey) ∧
    (0xE ∉ keys →
      (displayResultLED keys vL).afterReset = none ∧
      (displayResultSeg keys vS).afterReset = none) := by
  have hL := displayResultLEDloop_gate keys vL (!vL.waitingForHashKey) hf
  have hS := displayResultSegLoop_gate keys vS (!vS.waitingForHashKey) hf
  exact ⟨⟨hL.1, hL.2.1, hL.2.2.1⟩, ⟨hS.1, hS.2.1, hS.2.2.1⟩,
    fun he => ⟨hL.2.2.2 he, hS.2.2.2 he⟩⟩

/-- C7 witness: the amended theorem applied to the input list holding only
the digit key 3. -/
theorem c7_confirm_witness :
    (0xF ∉ ([3] : List Nat)) ∧
    (displayResultLED [3] resetCalculatorLED).computed = none ∧
    (displayResultSeg [3] segInit).shown = none ∧
    (displayResultLED [3] resetCalculatorLED).afterReset = none := by
  have h := c7_confirm_amended [3] resetCalculatorLED segInit (by decide)
  exact ⟨by decide, h.1.1, h.2.1.2.1, (h.2.2 (by decide)).1⟩

/-- C8: in the LED build, for operands in [0, 99] and any of the four
operator codes, the displayResult error test (result is -1 and num2 is 0)
holds exactly when the operator is Div and the divisor is 0; Add, Sub and
Mul with a zero second operand never return -1, so a legitimate result is
never misclassified. -/
theorem c8_error_sentinel (a b o : Int) (h1 : 0 ≤ a) (h2 : a ≤ 99) (h3 : 0 ≤ b)
    (h4 : b ≤ 99) (h5 : o = 0xA ∨ o = 0xB ∨ o = 0xC ∨ o = 0xD) :
    ((doOperationLED a b o).value = -1 ∧ b = 0) ↔ (o = 0xD ∧ b = 0) := by
  constructor
  · rintro ⟨hv, hb⟩
    subst hb
    refine ⟨?_, rfl⟩
    rcases h5 with h | h | h | h <;> subst h <;>
      norm_num [doOperationLED, MAX_INPUT] at hv ⊢ <;> omega
  · rintro ⟨ho, hb⟩
    subst ho; subst hb
    exact ⟨by norm_num [doOperationLED], rfl⟩

/-- C8 witness: the theorem applied at 5 Div 0. -/
theorem c8_error_sentinel_witness :
    ((doOperationLED 5 0 0xD).value = -1 ∧ (0 : Int) = 0) ↔
      ((0xD : Int) = 0xD ∧ (0 : Int) = 0) :=
  c8_error_sentinel 5 0 0xD (by decide) (by decide) (by decide) (by decide)
    (Or.inr (Or.inr (Or.inr rfl)))

/-- C9: the 7-segment doOperation returns a value in [-99, 99] for every
operator code and all integer operands (divide-by-zero and unrecognized
codes return 0 early, every other path passes the final clamp). -/
theorem c9_seg_result_bounded (a b o : Int) :
    -99 ≤ (doOperationSeg a b o).value ∧ (doOperationSeg a b o).value ≤ 99 :=
  doOperationSeg_bounds a b o

/-- C10: encodeDigit is total and never indexes its tables out of bounds:
the operator table is read only for inputs in 0xA..0xD (index below its
length 4), the digit table only for inputs in 0..9 (index below its length
12), -1 yields the minus pattern, every other input yields blank, every
pattern fits in 7 bits, and the displayDigit pattern (with or without the
decimal point) is a defined 8-bit value for any input. -/
theorem c10_encode_total (digit : Int) (dp : Bool) :
    ((0xA ≤ digit ∧ digit ≤ 0xD) →
      ((digit - 0xA).toNat < operatorPatterns.length ∧
       encodeDigit digit = operatorPatterns.getD (digit - 0xA).toNat 0)) ∧
    ((0 ≤ digit ∧ digit ≤ 9) →
      (digit.toNat < digitPatterns.length ∧
       encodeDigit digit = digitPatterns.getD digit.toNat 0)) ∧
    encodeDigit (-1) = PATTERN_MINUS ∧
    (¬(0xA ≤ digit ∧ digit ≤ 0xD) → ¬(0 ≤ digit ∧ digit ≤ 9) → digit ≠ -1 →
      encodeDigit digit = PATTERN_BLANK) ∧
    encodeDigit digit ≤ 127 ∧
    displayDigitPattern digit dp < 256 := by
  have hol : operatorPatterns.length = 4 := rfl
  have hdl : digitPatterns.length = 12 := rfl
  refine ⟨?_, ?_, by decide, ?_, ?_, ?_⟩
  · rintro ⟨ha, hb⟩
    refine ⟨by rw [hol]; omega, ?_⟩
    rw [encodeDigit, if_pos (⟨ha, hb⟩ : (0xA : Int) ≤ digit ∧ digit ≤ 0xD)]
  · rintro ⟨ha, hb⟩
    have hop : ¬((0xA : Int) ≤ digit ∧ digit ≤ 0xD) := by omega
    refine ⟨by rw [hdl]; omega, ?_⟩
    rw [encodeDigit, if_neg hop, if_pos (⟨ha, hb⟩ : (0 : Int) ≤ digit ∧ digit ≤ 9)]
  · intro ha hb hc
    rw [encodeDigit, if_neg ha, if_neg hb, if_neg hc]
  · by_cases hop : 0xA ≤ digit ∧ digit ≤ 0xD
    · obtain ⟨ha, hb⟩ := hop
      interval_cases digit <;> decide
    · by_cases hdig : 0 ≤ digit ∧ digit ≤ 9
      · obtain ⟨ha, hb⟩ := hdig
        interval_cases digit <;> decide
      · by_cases hm : digit = -1
        · subst hm; decide
        · rw [encodeDigit, if_neg hop, if_neg hdig, if_neg hm]; decide
  · by_cases hop : 0xA ≤ digit ∧ digit ≤ 0xD
    · obtain ⟨ha, hb⟩ := hop
      interval_cases digit <;> cases dp <;> decide
    · by_cases hdig : 0 ≤ digit ∧ digit ≤ 9
      · obtain ⟨ha, hb⟩ := hdig
        interval_cases digit <;> cases dp <;> decide
      · by_cases hm : digit = -1
        · subst hm; cases dp <;> decide
        · rw [displayDigitPattern, encodeDigit, if_neg hop, if_neg hdig, if_neg hm]
          cases dp <;> decide

/-- C10 witness: the theorem applied at the operator-range input 0xB with
the decimal point requested. -/
theorem c10_encode_witness :
    ((0xB : Int) - 0xA).toNat < operatorPatterns.length ∧
    encodeDigit 0xB = operatorPatterns.getD ((0xB : Int) - 0xA).toNat 0 ∧
    displayDigitPattern 0xB true < 256 := by
  have h := c10_encode_total 0xB true
  exact ⟨(h.1 (by decide)).1, (h.1 (by decide)).2, h.2.2.2.2.2⟩
